import Mathlib
set_option maxRecDepth 8000
/-!
# Verification of the `TextFileParser` text-analysis module

Shallow embedding of `src/AI_agent/AIpowered_file_parsing2.py`.

Modelling conventions:
* The file system is a parameter `fs : String → Option String` mapping a path
  to its decoded UTF-8 content (`none` models any I/O or decoding failure).
* The wall clock is a parameter `now : String` (the already-formatted
  `datetime.now().strftime(...)` result).
* The regex library call `re.findall(pattern, text, re.IGNORECASE)` used by
  `find_pattern` is a parameter `findall : String → String → List String`
  (pattern, then text, returning the matched substrings in order).
* A Python method returning `bool` and mutating `self` becomes a function
  `State → Bool × State`.  An uncaught Python exception (only possible in
  `basic_statistics`, via `ZeroDivisionError`) is modelled by `Option`: the
  value `none` is the raised exception.
* Python `float` averages are modelled by `ℚ` (true division of two
  machine integers; exact where the claims look at them).
-/

/-- Python `\w` on ASCII text: alphanumeric or underscore. -/

def isWordChar (c : Char) : Bool := c.isAlphanum || c = '_'

/-- Characters stripped by Python `str.strip()` with no argument. -/

def isPySpace (c : Char) : Bool :=
  c = ' ' || c = '\t' || c = '\n' || c = '\r' || c = '\x0b' || c = '\x0c'

/-- `s.strip()` is falsy exactly when every character is whitespace. -/

def isBlank (s : String) : Bool := s.data.all isPySpace

/-- Accumulator-style scanner for `re.findall(r'\w+', s)`: maximal runs of
word characters, in order of appearance.  `cur` holds the current run,
reversed. -/

def findallWordsAux : List Char → List Char → List String
  | [], [] => []
  | [], cur => [String.mk cur.reverse]
  | c :: rest, cur =>
    if isWordChar c then findallWordsAux rest (c :: cur)
    else if cur.isEmpty then findallWordsAux rest []
    else String.mk cur.reverse :: findallWordsAux rest []

/-- Python `str.lower()` on ASCII text, character by character. -/

def lowerStr (s : String) : String := String.mk (s.data.map Char.toLower)

/-- `re.findall(r'\w+', s.lower())`: the tokenizer shared by
`basic_statistics` and `word_frequency`. -/

def findWords (s : String) : List String := findallWordsAux (lowerStr s).data []

/-- A sentence-separator character, i.e. the class `[.!?]`. -/

def isSentenceSep (c : Char) : Bool := c = '.' || c = '!' || c = '?'

/-- Scanner for `re.split(r'[.!?]+', s)`: splits at each maximal run of
separator characters, keeping empty segments (including a leading or
trailing one), exactly as `re.split` does; `inSep` records whether we are
inside a separator run whose segment has already been emitted. -/

def splitSentencesAux : List Char → List Char → Bool → List String
  | [], cur, _ => [String.mk cur.reverse]
  | c :: rest, cur, inSep =>
    if isSentenceSep c then
      if inSep then splitSentencesAux rest cur true
      else String.mk cur.reverse :: splitSentencesAux rest [] true
    else splitSentencesAux rest (c :: cur) false

/-- `re.split(r'[.!?]+', s)`. -/

def splitSentences (s : String) : List String := splitSentencesAux s.data [] false

/-- Fuel-indexed scanner for Python `s.split(sep)` with a non-empty literal
separator (used with `"\n\n"` and `"/"`): splits at each non-overlapping
occurrence of `sep`, scanning left to right.  The fuel is the input length,
which is enough to consume the whole input. -/

def pySplitAux (sep : List Char) : Nat → List Char → List Char → List String
  | _, [], cur => [String.mk cur.reverse]
  | 0, l, cur => [String.mk (cur.reverse ++ l)]
  | fuel + 1, c :: rest, cur =>
    if sep.isPrefixOf (c :: rest) then
      String.mk cur.reverse :: pySplitAux sep fuel ((c :: rest).drop sep.length) []
    else pySplitAux sep fuel rest (c :: cur)

/-- Python `s.split(sep)` for a non-empty separator. -/

def pySplit (s sep : String) : List String := pySplitAux sep.data s.data.length s.data []

/-- `os.path.basename` for POSIX paths. -/

def basename (p : String) : String := (pySplit p "/").getLastD ""

/-- Python true division of two naturals; `none` is `ZeroDivisionError`. -/

def pyDivNat (a b : Nat) : Option ℚ :=
  if b = 0 then none else some ((a : ℚ) / (b : ℚ))

/-- First-occurrence deduplication: the keys of a Python dict built by
inserting the elements of the list in order. -/

def dedupFirst : List String → List String
  | [] => []
  | w :: rest => w :: (dedupFirst rest).filter (fun x => decide (x ≠ w))

/-- Model of `collections.Counter(ws)` viewed as an ordered association
list: keys in first-occurrence order (Python dicts preserve insertion
order), each paired with its multiplicity. -/

def wordCounts (ws : List String) : List (String × Nat) :=
  (dedupFirst ws).map (fun w => (w, ws.count w))

/-- The comparison `Counter.most_common` sorts by: descending count. -/

def countGe (a b : String × Nat) : Prop := b.2 ≤ a.2

instance : DecidableRel countGe := fun a b => Nat.decLe b.2 a.2

instance : IsTotal (String × Nat) countGe := ⟨fun a b => Nat.le_total b.2 a.2⟩

instance : IsTrans (String × Nat) countGe := ⟨fun _ _ _ hab hbc => Nat.le_trans hbc hab⟩

/-- Model of `Counter.most_common(n)`: a stable sort by descending count,
truncated to `n` items (`heapq.nlargest` is documented as equivalent to
`sorted(iterable, key=key, reverse=True)[:n]`, which is stable; any stable
sort computes the same list). -/

def most_common (n : Nat) (l : List (String × Nat)) : List (String × Nat) :=
  (List.insertionSort countGe l).take n

/-- The `statistics` entry of `analysis_results`. -/

structure Statistics where
  char_count : Nat
  word_count : Nat
  sentence_count : Nat
  paragraph_count : Nat
  avg_word_length : ℚ
  avg_sentence_length : ℚ
deriving DecidableEq, Repr

/-- The `word_frequency` entry of `analysis_results`. -/

structure WordFrequency where
  top_words : List (String × Nat)
  unique_words : Nat
deriving DecidableEq, Repr

/-- The `pattern_matches` entry of `analysis_results`.  The Python keys
`pattern` and `matches` are spelled `pat` and `matchList` because both words
are reserved in Lean. -/

structure PatternMatches where
  pat : String
  matchList : List String
  count : Nat
deriving DecidableEq, Repr

/-- The `analysis_results` dict.  Each key is `none` until the producing
step has run successfully. -/

structure AnalysisResults where
  file_name : Option String := none
  load_time : Option String := none
  statistics : Option Statistics := none
  word_frequency : Option WordFrequency := none
  pattern_matches : Option PatternMatches := none
deriving DecidableEq, Repr

/-- The state of one `TextFileParser` instance. -/

structure TextFileParser where
  file_content : String := ""
  analysis_results : AnalysisResults := {}
deriving DecidableEq, Repr

/-- `TextFileParser.load_file`: on success replaces the content and stamps
`file_name` and `load_time`; on failure returns `False` leaving the state
untouched. -/

def load_file (fs : String → Option String) (now : String)
    (st : TextFileParser) (file_path : String) : Bool × TextFileParser :=
  match fs file_path with
  | some content =>
    (true, { file_content := content,
             analysis_results := { st.analysis_results with
               file_name := some (basename file_path),
               load_time := some now } })
  | none => (false, st)

/-- `TextFileParser.basic_statistics`.  Returns `none` when the Python code
raises `ZeroDivisionError`: `re.split` never returns an empty list, so the
`if sentences else 0` guard on `avg_sentence_length` never fires and the
division runs even when the non-blank sentence count is zero. -/

def basic_statistics (st : TextFileParser) : Option (Bool × TextFileParser) :=
  if st.file_content = "" then some (false, st)
  else
    let words := findWords st.file_content
    let sentences := splitSentences st.file_content
    let paragraphs := (pySplit st.file_content "\n\n").filter (fun p => !(isBlank p))
    let nonBlankSentences := sentences.filter (fun s => !(isBlank s))
    let awl : Option ℚ :=
      if words.isEmpty then some 0
      else pyDivNat (words.map String.length).sum words.length
    let asl : Option ℚ :=
      if sentences.isEmpty then some 0
      else pyDivNat words.length nonBlankSentences.length
    match awl, asl with
    | some a, some b =>
      some (true, { st with analysis_results := { st.analysis_results with
        statistics := some {
          char_count := st.file_content.length,
          word_count := words.length,
          sentence_count := nonBlankSentences.length,
          paragraph_count := paragraphs.length,
          avg_word_length := a,
          avg_sentence_length := b } } })
    | _, _ => none

/-- `TextFileParser.word_frequency(top_n=10)`. -/

def word_frequency (st : TextFileParser) (top_n : Nat := 10) : Bool × TextFileParser :=
  if st.file_content = "" then (false, st)
  else
    let words := findWords st.file_content
    let word_counts := wordCounts words
    (true, { st with analysis_results := { st.analysis_results with
      word_frequency := some {
        top_words := most_common top_n word_counts,
        unique_words := word_counts.length } } })

/-- `TextFileParser.find_pattern(pattern)`; `findall` models
`re.findall(·, ·, re.IGNORECASE)`. -/

def find_pattern (findall : String → String → List String)
    (st : TextFileParser) (pat : String) : Bool × TextFileParser :=
  if st.file_content = "" then (false, st)
  else
    let ms := findall pat st.file_content
    (true, { st with analysis_results := { st.analysis_results with
      pattern_matches := some { pat := pat, matchList := ms, count := ms.length } } })

/-- The raw-string email regex of `extract_emails` (Python
`r'\b[A-Za-z0-9._%+-]+@[A-Za-z0-9.-]+\.[A-Z|a-z]{2,}\b'`); braces written
as escapes per the character data of the literal. -/

def email_pattern : String :=
  "\\b[A-Za-z0-9._%+-]+@[A-Za-z0-9.-]+\\.[A-Z|a-z]\x7b2,\x7d\\b"

/-- The raw-string URL regex of `extract_urls` (Python
`r'https?://(?:[-\w.]|(?:%[\da-fA-F]{2}))+[/\w .-]*/?'`). -/

def url_pattern : String :=
  "https?://(?:[-\\w.]|(?:%[\\da-fA-F]\x7b2\x7d))+[/\\w .-]*/?"

/-- `TextFileParser.extract_emails`. -/

def extract_emails (findall : String → String → List String)
    (st : TextFileParser) : Bool × TextFileParser :=
  find_pattern findall st email_pattern

/-- `TextFileParser.extract_urls`. -/

def extract_urls (findall : String → String → List String)
    (st : TextFileParser) : Bool × TextFileParser :=
  find_pattern findall st url_pattern

/-- `TextFileParser.analyze(file_path)`.  The outer `Option` is exception
propagation out of `basic_statistics`; the inner `Option AnalysisResults`
is the Python return value (`None` on load failure). -/

def analyze (fs : String → Option String) (now : String)
    (findall : String → String → List String)
    (st : TextFileParser) (file_path : String) :
    Option (Option AnalysisResults × TextFileParser) :=
  match load_file fs now st file_path with
  | (false, st1) => some (none, st1)
  | (true, st1) =>
    match basic_statistics st1 with
    | none => none
    | some (_, st2) =>
      let st3 := (word_frequency st2).2
      let st4 := (extract_emails findall st3).2
      let st5 := (extract_urls findall st4).2
      some (some st5.analysis_results, st5)

/-- The `"="*40` rule under the report title. -/

def eqLine : String := String.mk (List.replicate 40 '=')

/-- `self.analysis_results.get('pattern_matches', {}).get('pattern', '')`. -/

def pmPattern (r : AnalysisResults) : String :=
  match r.pattern_matches with
  | none => ""
  | some pm => pm.pat

/-- `...get('pattern_matches', {}).get('matches', [])`. -/

def pmMatchList (r : AnalysisResults) : List String :=
  match r.pattern_matches with
  | none => []
  | some pm => pm.matchList

/-- `...get('pattern_matches', {}).get('count', 0)`. -/

def pmCount (r : AnalysisResults) : Nat :=
  match r.pattern_matches with
  | none => 0
  | some pm => pm.count

/-- `suf.data.isSuffixOf`-based model of Python `str.endswith`. -/

def endsWithStr (s suf : String) : Bool := suf.data.isSuffixOf s.data

/-- Whether `sub` occurs as a contiguous run inside the second list. -/

def containsSub (sub : List Char) : List Char → Bool
  | [] => sub.isEmpty
  | c :: rest => sub.isPrefixOf (c :: rest) || containsSub sub rest

/-- Model of Python `sub in s` substring containment. -/

def containsStr (s sub : String) : Bool := containsSub sub.data s.data

/-- Fixed-point rendering `f"{q:.2f}"` for the nonnegative averages shown in
the report: round-half-up of `100*q` computed on the numerator and
denominator (approximates CPython round-half-even float formatting;
identical on every value exercised here). -/

def fmt2 (q : ℚ) : String :=
  let c : Int := (q.num * 200 + (q.den : Int)) / (2 * (q.den : Int))
  toString (c / 100) ++ "." ++ (if c % 100 < 10 then "0" else "") ++ toString (c % 100)

/-- The report header: title line, `=`-rule, file name and timestamp with
`'N/A'` defaults, then a blank line. -/

def reportHeader (r : AnalysisResults) : String :=
  "Text File Analysis Report\n" ++ eqLine ++ "\n"
  ++ "File: " ++ r.file_name.getD "N/A" ++ "\n"
  ++ "Analyzed at: " ++ r.load_time.getD "N/A" ++ "\n\n"

/-- The `Basic Statistics:` block; every field defaults to `0` when the
`statistics` key is absent. -/

def statsBlock (r : AnalysisResults) : String :=
  "Basic Statistics:\n"
  ++ "- Characters: " ++ toString ((r.statistics.map (·.char_count)).getD 0) ++ "\n"
  ++ "- Words: " ++ toString ((r.statistics.map (·.word_count)).getD 0) ++ "\n"
  ++ "- Sentences: " ++ toString ((r.statistics.map (·.sentence_count)).getD 0) ++ "\n"
  ++ "- Paragraphs: " ++ toString ((r.statistics.map (·.paragraph_count)).getD 0) ++ "\n"
  ++ "- Avg word length: " ++ fmt2 ((r.statistics.map (·.avg_word_length)).getD 0) ++ "\n"
  ++ "- Avg sentence length: " ++ fmt2 ((r.statistics.map (·.avg_sentence_length)).getD 0)
  ++ " words\n\n"

/-- The `Word Frequency:` block. -/

def freqBlock (r : AnalysisResults) : String :=
  "Word Frequency:\n"
  ++ "- Unique words: " ++ toString ((r.word_frequency.map (·.unique_words)).getD 0) ++ "\n"
  ++ "- Top 10 words:\n"
  ++ String.join (((r.word_frequency.map (·.top_words)).getD []).map
      (fun p => "  " ++ p.1 ++ ": " ++ toString p.2 ++ "\n"))
  ++ "\n"

/-- The suffix literal `'@[A-Za-z0-9.-]+\.[A-Z|a-z]{2,}\b'` of line 117 of
the source, decoded as Python decodes a NON-raw string: `\.` survives as
backslash-dot, but `\b` is the backspace character `\x08` (so it can never
match the raw-string `email_pattern`, which ends in backslash-`b`). -/

def emailSuffixLiteral : String := "@[A-Za-z0-9.-]+\\.[A-Z|a-z]\x7b2,\x7d\x08"

/-- The optional email block of the report: included exactly when the stored
pattern string ends with `emailSuffixLiteral`; shows the count, the first 5
matches and an elision line. -/

def emailBlock (r : AnalysisResults) : String :=
  if endsWithStr (pmPattern r) emailSuffixLiteral then
    "Email addresses found: " ++ toString (pmCount r) ++ "\n"
    ++ String.join (((pmMatchList r).take 5).map (fun m => "- " ++ m ++ "\n"))
    ++ (if 5 < pmCount r then "- ... and " ++ toString (pmCount r - 5) ++ " more\n" else "")
    ++ "\n"
  else ""

/-- The optional URL block of the report: included exactly when the stored
pattern string contains the substring `"http"`; shows the count, the first
3 matches and an elision line (no trailing blank line). -/

def urlBlock (r : AnalysisResults) : String :=
  if containsStr (pmPattern r) "http" then
    "URLs found: " ++ toString (pmCount r) ++ "\n"
    ++ String.join (((pmMatchList r).take 3).map (fun m => "- " ++ m ++ "\n"))
    ++ (if 3 < pmCount r then "- ... and " ++ toString (pmCount r - 3) ++ " more\n" else "")
  else ""

/-- `TextFileParser.save_results`: the full text written to the output file
(output I/O success is outside the embedding; the report text is the
observable). -/

def save_results (r : AnalysisResults) : String :=
  reportHeader r ++ statsBlock r ++ freqBlock r ++ emailBlock r ++ urlBlock r

/-- Scenario input of the specification's testable-properties section. -/

def c1Content : String := "Hello world. Hello again!\n\nSecond paragraph."

/-- A freshly constructed parser that has loaded `c1Content`. -/

def c1State : TextFileParser := { file_content := c1Content, analysis_results := {} }

/-- The statistics the code actually computes for the scenario input. -/

def c1Stats : Statistics :=
  { char_count := 44, word_count := 6, sentence_count := 3, paragraph_count := 2,
    avg_word_length := ((35 : ℕ) : ℚ) / ((6 : ℕ) : ℚ),
    avg_sentence_length := ((6 : ℕ) : ℚ) / ((3 : ℕ) : ℚ) }

/-- The word-frequency table the code computes for the scenario input. -/

def c1Freq : WordFrequency :=
  { top_words := [("hello", 2), ("world", 1), ("again", 1),
                  ("second", 1), ("paragraph", 1)],
    unique_words := 5 }

/-- A `findall` model that matches nothing, for concrete witnesses. -/

def noMatchFindall : String → String → List String := fun _ _ => []

/-- A file system on which every open fails. -/

def fsAllFail : String → Option String := fun _ => none

/-- A file system on which every path holds a zero-byte file. -/

def fsEmptyFile : String → Option String := fun _ => some ""

/-- The result record left by a URL search that found nothing. -/

def c3ZeroUrlResult : AnalysisResults :=
  { pattern_matches := some { pat := url_pattern, matchList := [], count := 0 } }

/-- A file system on which every path holds `"Hello world."`. -/

def fsHello : String → Option String := fun _ => some "Hello world."

/-- The invariant of C10: whenever `pattern_matches` is present, its `count`
equals the length of its match list. -/

def pmInv (st : TextFileParser) : Prop :=
  ∀ pm, st.analysis_results.pattern_matches = some pm → pm.count = pm.matchList.length

/-- Concrete content for the C8 witness. -/

def c8Content : String := "Hello world."

/-- The word-frequency record computed for `c8Content`. -/

def c8WF : WordFrequency := { top_words := [("hello", 1), ("world", 1)], unique_words := 2 }

/-- The statistics record computed for `c8Content`. -/

def c8Stats : Statistics :=
  { char_count := 12, word_count := 2, sentence_count := 1, paragraph_count := 1,
    avg_word_length := ((10 : Nat) : Rat) / ((2 : Nat) : Rat),
    avg_sentence_length := ((2 : Nat) : Rat) / ((1 : Nat) : Rat) }

/-- C1 (counterexample): on the input
`"Hello world. Hello again!\n\nSecond paragraph."` the code computes
`word_count = 6` (tokens: hello, world, hello, again, second, paragraph) and
`sentence_count = 3` (non-blank segments `"Hello world"`, `" Hello again"`,
`"\n\nSecond paragraph"`), refuting the claimed `word_count = 5` and
`sentence_count = 2`. -/

theorem c1_scenario_counterexample :
    basic_statistics c1State =
      some (true, { file_content := c1Content,
                    analysis_results := { statistics := some c1Stats } }) ∧
    c1Stats.word_count ≠ 5 ∧ c1Stats.sentence_count ≠ 2 :=
  ⟨rfl, by decide, by decide⟩

/-- C1 (amended): for the scenario input, `basic_statistics` yields
`word_count = 6`, `sentence_count = 3`, `paragraph_count = 2`, and
`word_frequency` (top 10) puts `("hello", 2)` first. -/

theorem c1_scenario_amended :
    basic_statistics c1State =
      some (true, { file_content := c1Content,
                    analysis_results := { statistics := some c1Stats } }) ∧
    word_frequency { file_content := c1Content,
                     analysis_results := { statistics := some c1Stats } } =
      (true, { file_content := c1Content,
               analysis_results := { statistics := some c1Stats,
                                     word_frequency := some c1Freq } }) :=
  ⟨rfl, rfl⟩

/-- C2 (code evaluated at the failing inputs): on non-empty content whose
sentence split has no non-blank segment (all punctuation, or all
whitespace), `basic_statistics` raises `ZeroDivisionError` (modelled
`none`): `re.split` never returns an empty list, so the
`if sentences else 0` guard is dead and `len(words)/0` is executed. -/

theorem c2_zero_sentence_division_raises :
    basic_statistics { file_content := "!!!", analysis_results := {} } = none ∧
    basic_statistics { file_content := "   ", analysis_results := {} } = none :=
  ⟨rfl, rfl⟩

/-- C5: with no successful load the stored content is the initial `""`
(Python falsy), so every compute step returns `False` and leaves the whole
state — in particular `analysis_results` — unchanged. -/

theorem c5_compute_before_load (st : TextFileParser)
    (fa : String → String → List String) (p : String) (n : Nat)
    (h : st.file_content = "") :
    basic_statistics st = some (false, st) ∧
    word_frequency st n = (false, st) ∧
    find_pattern fa st p = (false, st) := by
  refine ⟨?_, ?_, ?_⟩ <;> simp [basic_statistics, word_frequency, find_pattern, h]

/-- Witness for C5 at the freshly-constructed parser. -/

theorem c5_compute_before_load_witness :
    basic_statistics {} = some (false, {}) ∧
    word_frequency {} 10 = (false, {}) ∧
    find_pattern noMatchFindall {} "x" = (false, {}) :=
  c5_compute_before_load {} noMatchFindall "x" 10 rfl

/-- C6: when the open/read/decode fails (`fs file_path = none`) `load_file`
returns `False` and the entire parser state is exactly the prior state; on
success it stamps `file_name` (basename) and `load_time` and stores the
content, leaving all other result fields as they were. -/

theorem c6_load_failure_frame (fs : String → Option String) (now : String)
    (st : TextFileParser) (p : String) :
    (fs p = none → load_file fs now st p = (false, st)) ∧
    (∀ c, fs p = some c → load_file fs now st p =
      (true, { file_content := c,
               analysis_results := {
                 file_name := some (basename p),
                 load_time := some now,
                 statistics := st.analysis_results.statistics,
                 word_frequency := st.analysis_results.word_frequency,
                 pattern_matches := st.analysis_results.pattern_matches } })) := by
  constructor
  · intro h; simp [load_file, h]
  · intro c h; simp [load_file, h]

/-- Witness for C6: a failing and a succeeding load at concrete inputs. -/

theorem c6_load_failure_frame_witness :
    load_file fsAllFail "2024-01-01 00:00:00" {} "dir/f.txt" = (false, {}) ∧
    load_file fsEmptyFile "2024-01-01 00:00:00" {} "dir/f.txt" =
      (true, { file_content := "",
               analysis_results := {
                 file_name := some (basename "dir/f.txt"),
                 load_time := some "2024-01-01 00:00:00",
                 statistics := ({} : TextFileParser).analysis_results.statistics,
                 word_frequency := ({} : TextFileParser).analysis_results.word_frequency,
                 pattern_matches := ({} : TextFileParser).analysis_results.pattern_matches } }) :=
  ⟨(c6_load_failure_frame fsAllFail "2024-01-01 00:00:00" {} "dir/f.txt").1 rfl,
   (c6_load_failure_frame fsEmptyFile "2024-01-01 00:00:00" {} "dir/f.txt").2 "" rfl⟩

/-- C9: loading a zero-byte file succeeds — `load_file` returns `True` and
stamps `file_name` and `load_time` — yet every compute step then fails,
because each guard tests `self.file_content` truthiness (emptiness), not
whether a load succeeded. -/

theorem c9_empty_load_succeeds_computes_fail (fs : String → Option String)
    (now : String) (st : TextFileParser) (p : String)
    (fa : String → String → List String) (pat : String) (n : Nat)
    (h : fs p = some "") :
    load_file fs now st p =
      (true, { file_content := "",
               analysis_results := {
                 file_name := some (basename p),
                 load_time := some now,
                 statistics := st.analysis_results.statistics,
                 word_frequency := st.analysis_results.word_frequency,
                 pattern_matches := st.analysis_results.pattern_matches } }) ∧
    basic_statistics (load_file fs now st p).2 = some (false, (load_file fs now st p).2) ∧
    word_frequency (load_file fs now st p).2 n = (false, (load_file fs now st p).2) ∧
    find_pattern fa (load_file fs now st p).2 pat = (false, (load_file fs now st p).2) := by
  have h1 : (load_file fs now st p).2.file_content = "" := by
    simp [load_file, h]
  refine ⟨by simp [load_file, h], ?_, ?_, ?_⟩ <;>
    simp [basic_statistics, word_frequency, find_pattern, h1]

/-- Witness for C9 on the all-empty file system. -/

theorem c9_empty_load_witness :
    load_file fsEmptyFile "t" {} "f.txt" =
      (true, { file_content := "",
               analysis_results := {
                 file_name := some (basename "f.txt"),
                 load_time := some "t",
                 statistics := ({} : TextFileParser).analysis_results.statistics,
                 word_frequency := ({} : TextFileParser).analysis_results.word_frequency,
                 pattern_matches := ({} : TextFileParser).analysis_results.pattern_matches } }) ∧
    basic_statistics (load_file fsEmptyFile "t" {} "f.txt").2 =
      some (false, (load_file fsEmptyFile "t" {} "f.txt").2) ∧
    word_frequency (load_file fsEmptyFile "t" {} "f.txt").2 10 =
      (false, (load_file fsEmptyFile "t" {} "f.txt").2) ∧
    find_pattern noMatchFindall (load_file fsEmptyFile "t" {} "f.txt").2 "x" =
      (false, (load_file fsEmptyFile "t" {} "f.txt").2) :=
  c9_empty_load_succeeds_computes_fail fsEmptyFile "t" {} "f.txt"
    noMatchFindall "x" 10 rfl

/-- C3 (counterexample): an analysis result whose last pattern search was
`extract_urls` with zero matches still renders a `URLs found: 0` section —
the report gates the block on the stored pattern string (which contains
`"http"`), not on the match count. -/

theorem c3_zero_match_url_block_rendered :
    urlBlock c3ZeroUrlResult = "URLs found: 0\n" ∧
    urlBlock c3ZeroUrlResult ≠ "" ∧
    containsStr (save_results c3ZeroUrlResult) "URLs found: 0" = true :=
  ⟨rfl, by decide, by decide⟩

/-- C3 (amended): for a result with no pattern search at all
(`pattern_matches` absent) the report omits both optional blocks entirely;
but block inclusion is decided by the stored pattern string, not the match
count, so a zero-match URL search still renders a `URLs found: 0` section
(see the counterexample). -/

theorem c3_no_search_blocks_omitted (r : AnalysisResults)
    (h : r.pattern_matches = none) :
    emailBlock r = "" ∧ urlBlock r = "" := by
  have hp : pmPattern r = "" := by simp [pmPattern, h]
  have h1 : endsWithStr (pmPattern r) emailSuffixLiteral = false := by rw [hp]; rfl
  have h2 : containsStr (pmPattern r) "http" = false := by rw [hp]; rfl
  exact ⟨by simp [emailBlock, h1], by simp [urlBlock, h2]⟩

/-- Witness for C3 at the empty result record. -/

theorem c3_no_search_blocks_omitted_witness :
    emailBlock {} = "" ∧ urlBlock {} = "" :=
  c3_no_search_blocks_omitted {} rfl

/-- Unfolding `pyDivNat` at a non-zero denominator. -/

lemma pyDivNat_some (a b : Nat) (h : ¬ b = 0) :
    pyDivNat a b = some ((a : ℚ) / (b : ℚ)) := by
  simp [pyDivNat, h]

/-- `basic_statistics` succeeds (no `ZeroDivisionError`, returns `True`) on
non-empty content whose sentence split has a non-blank segment, storing
some statistics record and touching nothing else. -/

lemma basic_statistics_success (st : TextFileParser)
    (h1 : ¬ st.file_content = "")
    (h2 : (splitSentences st.file_content).filter (fun s => !(isBlank s)) ≠ []) :
    ∃ s, basic_statistics st =
      some (true, { st with analysis_results :=
        { st.analysis_results with statistics := some s } }) := by
  have hlen : ¬ ((splitSentences st.file_content).filter (fun s => !(isBlank s))).length = 0 := by
    simpa [List.length_eq_zero] using h2
  obtain ⟨a, ha⟩ : ∃ a : ℚ, (if (findWords st.file_content).isEmpty then some 0
      else pyDivNat ((findWords st.file_content).map String.length).sum
        (findWords st.file_content).length) = some a := by
    by_cases hw : (findWords st.file_content).isEmpty
    · exact ⟨0, by rw [if_pos hw]⟩
    · have hwl : ¬ (findWords st.file_content).length = 0 := by
        simpa [List.isEmpty_iff, List.length_eq_zero] using hw
      exact ⟨_, by rw [if_neg hw, pyDivNat_some _ _ hwl]⟩
  obtain ⟨b, hb⟩ : ∃ b : ℚ, (if (splitSentences st.file_content).isEmpty then some 0
      else pyDivNat (findWords st.file_content).length
        ((splitSentences st.file_content).filter (fun s => !(isBlank s))).length) = some b := by
    by_cases hs : (splitSentences st.file_content).isEmpty
    · exact ⟨0, by rw [if_pos hs]⟩
    · exact ⟨_, by rw [if_neg hs, pyDivNat_some _ _ hlen]⟩
  exact ⟨_, by
    unfold basic_statistics
    rw [if_neg h1]
    simp only [ha, hb]
    rfl⟩

/-- C4 (amended): `analyze` returns `None` exactly as claimed when the load
fails, and it runs statistics, word frequency (top 10), `extract_emails`,
then `extract_urls` unconditionally; provided the loaded content is
non-empty and its sentence split has a non-blank segment, the returned
record's `pattern_matches` holds exactly the URL search's pattern, matches
and count (the email search's slot having been overwritten).  (For an empty
loaded file every step fails and `pattern_matches` keeps its prior value —
see the counterexample; for non-empty all-punctuation content
`basic_statistics` raises and `analyze` propagates the exception.) -/

theorem c4_analyze_pipeline :
    (∀ (fs : String → Option String) (now : String)
       (fa : String → String → List String) (st : TextFileParser) (p : String),
       fs p = none → analyze fs now fa st p = some (none, st)) ∧
    (∀ (fs : String → Option String) (now : String)
       (fa : String → String → List String) (st : TextFileParser) (p c : String),
       fs p = some c → ¬ c = "" →
       (splitSentences c).filter (fun s => !(isBlank s)) ≠ [] →
       ∃ st5 : TextFileParser,
         analyze fs now fa st p = some (some st5.analysis_results, st5) ∧
         st5.analysis_results.pattern_matches =
           some { pat := url_pattern, matchList := fa url_pattern c,
                  count := (fa url_pattern c).length }) := by
  constructor
  · intro fs now fa st p h
    simp [analyze, load_file, h]
  · intro fs now fa st p c hc hne hnb
    obtain ⟨s, hbs⟩ := basic_statistics_success
      { file_content := c, analysis_results := { st.analysis_results with
          file_name := some (basename p), load_time := some now } } hne hnb
    refine ⟨{ file_content := c,
              analysis_results := {
                file_name := some (basename p),
                load_time := some now,
                statistics := some s,
                word_frequency := some {
                  top_words := most_common 10 (wordCounts (findWords c)),
                  unique_words := (wordCounts (findWords c)).length },
                pattern_matches := some {
                  pat := url_pattern, matchList := fa url_pattern c,
                  count := (fa url_pattern c).length } } }, ?_, rfl⟩
    simp only [analyze, load_file, hc, hbs, word_frequency, find_pattern,
      extract_emails, extract_urls, if_neg hne]

/-- C4 (counterexample): loading a zero-byte file succeeds, so `analyze`
returns a (non-null) record, but every compute step failed and
`pattern_matches` is absent — not the URL search's pattern/matches/count
as the claim states for every successful load. -/

theorem c4_empty_file_counterexample :
    analyze fsEmptyFile "2024-01-01 00:00:00" noMatchFindall {} "f.txt" =
      some (some { file_name := some "f.txt", load_time := some "2024-01-01 00:00:00" },
            { file_content := "",
              analysis_results := { file_name := some "f.txt",
                                    load_time := some "2024-01-01 00:00:00" } }) ∧
    ({ file_name := some "f.txt", load_time := some "2024-01-01 00:00:00" } :
        AnalysisResults).pattern_matches ≠
      some { pat := url_pattern, matchList := noMatchFindall url_pattern "",
             count := (noMatchFindall url_pattern "").length } :=
  ⟨rfl, by decide⟩

/-- Witness for C4 on a one-sentence file. -/

theorem c4_analyze_pipeline_witness :
    ∃ st5 : TextFileParser,
      analyze fsHello "t" noMatchFindall {} "f.txt" = some (some st5.analysis_results, st5) ∧
      st5.analysis_results.pattern_matches =
        some { pat := url_pattern, matchList := noMatchFindall url_pattern "Hello world.",
               count := (noMatchFindall url_pattern "Hello world.").length } :=
  c4_analyze_pipeline.2 fsHello "t" noMatchFindall {} "f.txt" "Hello world."
    rfl (by decide) (by decide)

/-- `load_file` preserves the pattern-match count invariant. -/

lemma pmInv_load_file (fs : String → Option String) (now : String)
    (st : TextFileParser) (p : String) (h : pmInv st) :
    pmInv (load_file fs now st p).2 := by
  intro pm hpm
  cases hfs : fs p with
  | none => exact h pm (by simpa [load_file, hfs] using hpm)
  | some c => exact h pm (by simpa [load_file, hfs] using hpm)

/-- `basic_statistics` preserves the pattern-match count invariant. -/

lemma pmInv_basic_statistics (st : TextFileParser) (h : pmInv st)
    (b : Bool) (st1 : TextFileParser) (hbs : basic_statistics st = some (b, st1)) :
    pmInv st1 := by
  by_cases hc : st.file_content = ""
  · simp only [basic_statistics, if_pos hc, Option.some.injEq, Prod.mk.injEq] at hbs
    exact hbs.2 ▸ h
  · simp only [basic_statistics, if_neg hc] at hbs
    split at hbs
    · simp only [Option.some.injEq, Prod.mk.injEq] at hbs
      intro pm hpm
      rw [← hbs.2] at hpm
      exact h pm (by simpa using hpm)
    · exact absurd hbs (by simp)

/-- `word_frequency` preserves the pattern-match count invariant. -/

lemma pmInv_word_frequency (st : TextFileParser) (n : Nat) (h : pmInv st) :
    pmInv (word_frequency st n).2 := by
  intro pm hpm
  by_cases hc : st.file_content = ""
  · exact h pm (by simpa [word_frequency, hc] using hpm)
  · exact h pm (by simpa [word_frequency, hc] using hpm)

/-- `find_pattern` preserves the pattern-match count invariant (on a failed
call the state is unchanged; on success the freshly stored record satisfies
it by construction). -/

lemma pmInv_find_pattern (fa : String → String → List String)
    (st : TextFileParser) (pat : String) (h : pmInv st) :
    pmInv (find_pattern fa st pat).2 := by
  intro pm hpm
  by_cases hc : st.file_content = ""
  · exact h pm (by simpa [find_pattern, hc] using hpm)
  · have h2 : some (⟨pat, fa pat st.file_content,
        (fa pat st.file_content).length⟩ : PatternMatches) = some pm := by
      simpa [find_pattern, hc] using hpm
    obtain rfl := Option.some.inj h2
    rfl

/-- After any successful `find_pattern` the stored record's `count` equals
the length of its match list, with no assumption on the prior state. -/

lemma pmInv_find_pattern_true (fa : String → String → List String)
    (st : TextFileParser) (pat : String) (st1 : TextFileParser)
    (hfp : find_pattern fa st pat = (true, st1)) : pmInv st1 := by
  by_cases hc : st.file_content = ""
  · simp [find_pattern, hc] at hfp
  · simp only [find_pattern, if_neg hc, Prod.mk.injEq, true_and] at hfp
    intro pm hpm
    rw [← hfp] at hpm
    simp only [Option.some.injEq] at hpm
    rw [← hpm]

/-- `analyze` preserves the pattern-match count invariant. -/

lemma pmInv_analyze (fs : String → Option String) (now : String)
    (fa : String → String → List String) (st : TextFileParser) (p : String)
    (r : Option AnalysisResults × TextFileParser) (h : pmInv st)
    (hA : analyze fs now fa st p = some r) : pmInv r.2 := by
  have hload : pmInv (load_file fs now st p).2 := pmInv_load_file fs now st p h
  unfold analyze at hA
  split at hA
  · next st1 heq =>
    obtain rfl := Option.some.inj hA
    rw [heq] at hload
    exact hload
  · next st1 heq =>
    split at hA
    · exact absurd hA (by simp)
    · next b st2 heq2 =>
      obtain rfl := Option.some.inj hA
      rw [heq] at hload
      have h1 : pmInv st1 := hload
      have h2 : pmInv st2 := pmInv_basic_statistics st1 h1 b st2 heq2
      exact pmInv_find_pattern fa _ url_pattern
        (pmInv_find_pattern fa _ email_pattern (pmInv_word_frequency _ 10 h2))

/-- C10: after every successful pattern search the stored `pattern_matches`
record satisfies `count = matches.length`, and every operation of the
analyzer (`load_file`, `basic_statistics`, `word_frequency`,
`find_pattern`, `extract_emails`, `extract_urls`, `analyze`) preserves this
invariant. -/

theorem c10_count_invariant :
    (∀ (fa : String → String → List String) (st : TextFileParser) (pat : String)
       (st1 : TextFileParser),
       find_pattern fa st pat = (true, st1) → pmInv st1) ∧
    (∀ (fs : String → Option String) (now : String) (st : TextFileParser) (p : String),
       pmInv st → pmInv (load_file fs now st p).2) ∧
    (∀ st : TextFileParser, pmInv st →
       ∀ (b : Bool) (st1 : TextFileParser), basic_statistics st = some (b, st1) → pmInv st1) ∧
    (∀ (st : TextFileParser) (n : Nat), pmInv st → pmInv (word_frequency st n).2) ∧
    (∀ (fa : String → String → List String) (st : TextFileParser) (pat : String),
       pmInv st → pmInv (find_pattern fa st pat).2) ∧
    (∀ (fa : String → String → List String) (st : TextFileParser),
       pmInv st → pmInv (extract_emails fa st).2) ∧
    (∀ (fa : String → String → List String) (st : TextFileParser),
       pmInv st → pmInv (extract_urls fa st).2) ∧
    (∀ (fs : String → Option String) (now : String) (fa : String → String → List String)
       (st : TextFileParser) (p : String) (r : Option AnalysisResults × TextFileParser),
       pmInv st → analyze fs now fa st p = some r → pmInv r.2) :=
  ⟨pmInv_find_pattern_true,
   pmInv_load_file,
   pmInv_basic_statistics,
   pmInv_word_frequency,
   pmInv_find_pattern,
   fun fa st h => pmInv_find_pattern fa st email_pattern h,
   fun fa st h => pmInv_find_pattern fa st url_pattern h,
   pmInv_analyze⟩

/-- Witness for C10: a concrete successful `find_pattern` call establishes
the invariant. -/

theorem c10_count_invariant_witness :
    pmInv { file_content := "a",
            analysis_results := {
              pattern_matches := some { pat := "x", matchList := ([] : List String),
                                        count := 0 } } } :=
  c10_count_invariant.1 noMatchFindall { file_content := "a", analysis_results := {} } "x"
    { file_content := "a",
      analysis_results := {
        pattern_matches := some { pat := "x", matchList := ([] : List String),
                                  count := 0 } } } rfl

/-- `dedupFirst` is a sublist of its input. -/

lemma dedupFirst_sublist : ∀ ws : List String, (dedupFirst ws).Sublist ws
  | [] => List.nil_sublist []
  | w :: rest => by
    rw [dedupFirst]
    exact ((List.filter_sublist _).trans (dedupFirst_sublist rest)).cons₂ w

/-- `dedupFirst` keeps exactly the members of its input. -/

lemma mem_dedupFirst {a : String} : ∀ {ws : List String}, a ∈ dedupFirst ws ↔ a ∈ ws := by
  intro ws
  induction ws with
  | nil => simp [dedupFirst]
  | cons w rest ih =>
    by_cases haw : a = w
    · subst haw; simp [dedupFirst]
    · simp [dedupFirst, List.mem_filter, ih, haw]

/-- `dedupFirst` has no duplicates. -/

lemma nodup_dedupFirst : ∀ ws : List String, (dedupFirst ws).Nodup
  | [] => by simp [dedupFirst]
  | w :: rest => by
    rw [dedupFirst]
    refine List.Nodup.cons ?_ ((nodup_dedupFirst rest).filter _)
    intro hmem
    have h := List.of_mem_filter hmem
    simp at h

/-- On a duplicate-free list `dedupFirst` is the identity. -/

lemma dedupFirst_of_nodup : ∀ ws : List String, ws.Nodup → dedupFirst ws = ws
  | [], _ => rfl
  | w :: rest, h => by
    rw [dedupFirst, dedupFirst_of_nodup rest (List.nodup_cons.mp h).2]
    congr 1
    apply List.filter_eq_self.mpr
    intro b hb
    simp only [decide_eq_true_iff]
    exact fun hbw => (List.nodup_cons.mp h).1 (hbw ▸ hb)

/-- `dedupFirst` preserves the length exactly when the input has no
duplicates. -/

lemma length_dedupFirst_eq_iff (ws : List String) :
    (dedupFirst ws).length = ws.length ↔ ws.Nodup := by
  constructor
  · intro h
    have he := (dedupFirst_sublist ws).eq_of_length h
    rw [← he]
    exact nodup_dedupFirst ws
  · intro h
    rw [dedupFirst_of_nodup ws h]

/-- C8: after `compute_word_frequency` succeeds, `unique_words` is at most
the `word_count` stored by `basic_statistics` (identical tokenization),
with equality exactly when the tokenized words are pairwise distinct. -/

theorem c8_unique_le_word_count (st : TextFileParser) (n : Nat)
    (stW : TextFileParser) (hW : word_frequency st n = (true, stW))
    (wf : WordFrequency) (hwf : stW.analysis_results.word_frequency = some wf)
    (stB : TextFileParser) (hB : basic_statistics st = some (true, stB))
    (s : Statistics) (hs : stB.analysis_results.statistics = some s) :
    wf.unique_words ≤ s.word_count ∧
    (wf.unique_words = s.word_count ↔ (findWords st.file_content).Nodup) := by
  by_cases hc : st.file_content = ""
  · simp [word_frequency, hc] at hW
  · have hu : wf.unique_words = (dedupFirst (findWords st.file_content)).length := by
      simp only [word_frequency, if_neg hc, Prod.mk.injEq, true_and] at hW
      rw [← hW] at hwf
      simp only [Option.some.injEq] at hwf
      rw [← hwf, wordCounts, List.length_map]
    have hwc : s.word_count = (findWords st.file_content).length := by
      simp only [basic_statistics, if_neg hc] at hB
      split at hB
      · simp only [Option.some.injEq, Prod.mk.injEq, true_and] at hB
        rw [← hB] at hs
        simp only [Option.some.injEq] at hs
        rw [← hs]
      · exact absurd hB (by simp)
    rw [hu, hwc]
    exact ⟨(dedupFirst_sublist _).length_le, length_dedupFirst_eq_iff _⟩

/-- Witness for C8 on a two-word sentence. -/

theorem c8_unique_le_word_count_witness :
    c8WF.unique_words <= c8Stats.word_count /\
    (c8WF.unique_words = c8Stats.word_count <-> (findWords c8Content).Nodup) :=
  c8_unique_le_word_count { file_content := c8Content, analysis_results := {} } 10
    { file_content := c8Content, analysis_results := { word_frequency := some c8WF } } rfl
    c8WF rfl
    { file_content := c8Content, analysis_results := { statistics := some c8Stats } } rfl
    c8Stats rfl

/-- Two positions of a list, in order, form a two-element sublist. -/

lemma pair_get_sublist {α : Type} (l : List α) :
    ∀ (i j : Nat) (hi : i < l.length) (hj : j < l.length), i < j →
    ([l.get ⟨i, hi⟩, l.get ⟨j, hj⟩]).Sublist l := by
  induction l with
  | nil => intro i j hi hj hij; simp at hi
  | cons x t ih =>
    intro i j hi hj hij
    match i, j with
    | 0, 0 => exact absurd hij (by omega)
    | i + 1, 0 => exact absurd hij (by omega)
    | 0, j + 1 =>
      exact (List.singleton_sublist.mpr
        (List.get_mem t j (Nat.lt_of_succ_lt_succ hj))).cons₂ x
    | i + 1, j + 1 =>
      exact (ih i j (Nat.lt_of_succ_lt_succ hi) (Nat.lt_of_succ_lt_succ hj)
        (Nat.lt_of_succ_lt_succ hij)).cons x

/-- A two-element sublist determines two ordered positions. -/

lemma pair_sublist_positions {α : Type} {x y : α} : ∀ {l : List α},
    ([x, y]).Sublist l →
    ∃ (i j : Nat) (hi : i < l.length) (hj : j < l.length),
      i < j ∧ l.get ⟨i, hi⟩ = x ∧ l.get ⟨j, hj⟩ = y := by
  intro l h
  induction l with
  | nil => simp at h
  | cons a t ih =>
    cases h with
    | cons _ h2 =>
      obtain ⟨i, j, hi, hj, hij, hx, hy⟩ := ih h2
      exact ⟨i + 1, j + 1, Nat.succ_lt_succ hi, Nat.succ_lt_succ hj,
        Nat.succ_lt_succ hij, hx, hy⟩
    | cons₂ _ h2 =>
      have hy : y ∈ t := List.singleton_sublist.mp h2
      obtain ⟨⟨j, hj⟩, hyj⟩ := List.get_of_mem hy
      exact ⟨0, j + 1, Nat.succ_pos t.length, Nat.succ_lt_succ hj,
        Nat.succ_pos j, rfl, hyj⟩

/-- The keys produced by `dedupFirst` are ordered by first occurrence in
the input. -/

lemma dedupFirst_pairwise_indexOf (ws : List String) :
    (dedupFirst ws).Pairwise (fun a b => ws.indexOf a < ws.indexOf b) := by
  induction ws with
  | nil => simp [dedupFirst]
  | cons w rest ih =>
    rw [dedupFirst, List.pairwise_cons]
    constructor
    · intro b hb
      have hbw : b ≠ w := by
        have h1 := List.of_mem_filter hb
        simpa using h1
      rw [List.indexOf_cons_self, List.indexOf_cons_ne rest hbw.symm]
      exact Nat.succ_pos _
    · refine List.Pairwise.imp_of_mem ?_ (ih.filter _)
      intro a b ha hb hr
      have haw : a ≠ w := by
        have h1 := List.of_mem_filter ha
        simpa using h1
      have hbw : b ≠ w := by
        have h1 := List.of_mem_filter hb
        simpa using h1
      rw [List.indexOf_cons_ne rest haw.symm, List.indexOf_cons_ne rest hbw.symm]
      exact Nat.succ_lt_succ hr

/-- A counter has pairwise-distinct entries (its keys are distinct). -/

lemma wordCounts_nodup (ws : List String) : (wordCounts ws).Nodup :=
  List.Nodup.map (fun _ _ h => congrArg Prod.fst h) (nodup_dedupFirst ws)

/-- Counter entries are ordered by the first occurrence of their key. -/

lemma wordCounts_pairwise_indexOf (ws : List String) :
    (wordCounts ws).Pairwise (fun a b => ws.indexOf a.1 < ws.indexOf b.1) := by
  rw [wordCounts, List.pairwise_map]
  exact dedupFirst_pairwise_indexOf ws

/-- Stability of the `most_common` sort: entries of a duplicate-free list
that compare equal on counts keep any pairwise order `P` they had before
sorting. -/

lemma insertionSort_countGe_tie_stable (l : List (String × Nat))
    (P : String × Nat → String × Nat → Prop)
    (hnd : l.Nodup) (hord : l.Pairwise P) :
    (List.insertionSort countGe l).Pairwise (fun a b => a.2 = b.2 → P a b) := by
  rw [List.pairwise_iff_getElem]
  intro i j hi hj hij heq
  have hperm := List.perm_insertionSort countGe l
  have hndS : (List.insertionSort countGe l).Nodup := hperm.symm.nodup hnd
  have hne : (List.insertionSort countGe l)[i] ≠ (List.insertionSort countGe l)[j] :=
    fun h => absurd (hndS.getElem_inj_iff.mp h) (by omega)
  have hmi : (List.insertionSort countGe l)[i] ∈ l := hperm.mem_iff.mp (List.getElem_mem hi)
  have hmj : (List.insertionSort countGe l)[j] ∈ l := hperm.mem_iff.mp (List.getElem_mem hj)
  obtain ⟨ia, hia, ha⟩ := List.getElem_of_mem hmi
  obtain ⟨ib, hib, hb⟩ := List.getElem_of_mem hmj
  rcases Nat.lt_trichotomy ia ib with hlt | hEq | hgt
  · have hP := List.pairwise_iff_getElem.mp hord ia ib hia hib hlt
    rw [ha, hb] at hP
    exact hP
  · subst hEq
    exact absurd (ha.symm.trans hb) hne
  · have hsub : ([(List.insertionSort countGe l)[j],
        (List.insertionSort countGe l)[i]]).Sublist l := by
      have h0 := pair_get_sublist l ib ia hib hia hgt
      rw [List.get_eq_getElem, List.get_eq_getElem] at h0
      rw [ha, hb] at h0
      exact h0
    have hcg : countGe ((List.insertionSort countGe l)[j])
        ((List.insertionSort countGe l)[i]) := le_of_eq heq
    have hpair := List.pair_sublist_insertionSort hcg hsub
    obtain ⟨p, q, hp, hq, hpq, hPe, hQe⟩ := pair_sublist_positions hpair
    have h1 : p = j := hndS.getElem_inj_iff.mp hPe
    have h2 : q = i := hndS.getElem_inj_iff.mp hQe
    exact absurd hpq (by omega)

/-- C7: the stored `top_words` has length at most `min top_n unique_words`,
is sorted by count in descending order, and entries with equal counts
appear in order of the first occurrence of their word in the tokenized
word sequence. -/

theorem c7_top_words_shape (st : TextFileParser) (n : Nat)
    (stW : TextFileParser) (hW : word_frequency st n = (true, stW))
    (wf : WordFrequency) (hwf : stW.analysis_results.word_frequency = some wf) :
    wf.top_words.length ≤ min n wf.unique_words ∧
    wf.top_words.Pairwise (fun a b => b.2 ≤ a.2) ∧
    wf.top_words.Pairwise (fun a b => a.2 = b.2 →
      (findWords st.file_content).indexOf a.1 < (findWords st.file_content).indexOf b.1) := by
  by_cases hc : st.file_content = ""
  · simp [word_frequency, hc] at hW
  · simp only [word_frequency, if_neg hc, Prod.mk.injEq, true_and] at hW
    rw [← hW] at hwf
    simp only [Option.some.injEq] at hwf
    subst hwf
    refine ⟨?_, ?_, ?_⟩
    · exact le_of_eq (by simp [most_common, List.length_insertionSort])
    · exact List.Pairwise.sublist (List.take_sublist _ _)
        (List.sorted_insertionSort countGe _)
    · exact List.Pairwise.sublist (List.take_sublist _ _)
        (insertionSort_countGe_tie_stable _ _ (wordCounts_nodup _)
          (wordCounts_pairwise_indexOf _))

/-- Witness for C7 on the three-token content `"b a b"`. -/

theorem c7_top_words_shape_witness :
    ([("b", 2), ("a", 1)] : List (String × Nat)).length ≤ min 10 2 ∧
    ([("b", 2), ("a", 1)] : List (String × Nat)).Pairwise (fun a b => b.2 ≤ a.2) ∧
    ([("b", 2), ("a", 1)] : List (String × Nat)).Pairwise (fun a b => a.2 = b.2 →
      (findWords "b a b").indexOf a.1 < (findWords "b a b").indexOf b.1) :=
  c7_top_words_shape { file_content := "b a b", analysis_results := {} } 10
    { file_content := "b a b",
      analysis_results := { word_frequency := some { top_words := [("b", 2), ("a", 1)],
                                                     unique_words := 2 } } } rfl
    { top_words := [("b", 2), ("a", 1)], unique_words := 2 } rfl
